import Mathlib

/-
Verification of the cureat-backend-demo recommendation pipeline
(`app/service.py`) against its natural-language specification.

The Python service is shallowly embedded: every external effect
(the Naver search/blog HTTP calls and the OpenAI chat-completion calls)
is represented by an `Oracle` of pure functions describing one fixed
behaviour of the outside world, and each Python function of the core
becomes a Lean function over that oracle.  A Python exception escaping a
function is represented by `Except.error ()`; a function that can never
raise returns a plain value.
-/

set_option autoImplicit false

namespace Cureat

/-- A JSON value as produced by Python's `json.loads` on a provider
response.  Numbers are modelled as integers; no claim depends on a
numeric payload. -/
inductive Json where
  | null : Json
  | bool (b : Bool) : Json
  | num (n : Int) : Json
  | str (s : String) : Json
  | arr (xs : List Json) : Json
  | obj (kvs : List (String × Json)) : Json

/-- One item of the Naver local-search response (`service.py`
`search_places`).  `title` is accessed with `item["title"]` in the code,
so it is modelled as a required field, matching the provider schema;
the other fields are read with `.get` and are optional. -/
structure PlaceItem where
  title : String
  roadAddress : Option String
  address : Option String
  mapx : Option String
  mapy : Option String

/-- One item of the Naver blog-search response (`fetch_blog_context`);
only `description` is read, via `.get("description", "")`. -/
structure BlogItem where
  description : Option String

/-- `schemas.ChatRequest`: the request body of the service. -/
structure ChatRequest where
  prompt : String
  language : String

/-- The dictionary returned by `fetch_blog_context`. -/
structure ReviewBundle where
  context : String
  removed_count : Nat

/-- The per-restaurant dictionary appended to `final_list` by
`create_recommendations` / `create_recommendations_v2`.  The
`summary`, `summary_pros`, `summary_cons` and (in v2) `address` values
come unvalidated from model JSON, hence have type `Json`. -/
structure RecItem where
  name : String
  address : Json
  summary : Json
  summary_pros : Json
  summary_cons : Json
  is_ad_filtered : Bool
  filtered_ad_count : Nat
  mapx : Option String
  mapy : Option String
  keywords : List String

/-- The top-level dictionary returned by both pipelines. -/
structure RecResult where
  answer : String
  restaurants : List RecItem

/-- One fixed behaviour of the outside world for one request.
`none` / `Except.error ()` means the HTTP request or its JSON decoding
raised an exception at that call site.  The three chat-completion call
sites of `service.py` carry distinguishable message contents, so they
are modelled as three separate reply functions keyed by the data that
the code puts into the messages.  For `analyzeReply` and
`translateReply` the reply is the already-`json.loads`-decoded value
(`Except.error` covering both a failed call and a JSON parse error,
which land in the same `except` branch of the code); `optimizeReply`
is the raw reply string, which the code does not JSON-parse. -/
structure Oracle where
  hasKey : Bool
  search : String → Option (List PlaceItem)
  blog : String → Option (List BlogItem)
  analyzeReply : String → String → String → Except Unit Json
  optimizeReply : String → Except Unit String
  translateReply : String → String → Except Unit Json

/-! ### Python string primitives -/

/-- The whitespace characters removed by Python's `str.strip()`. -/
def isPySpace (c : Char) : Bool :=
  c = ' ' || c = '\t' || c = '\n' || c = '\r' || c = '\x0b' || c = '\x0c'

/-- Python `s.strip()`. -/
def pyStrip (s : String) : String :=
  ⟨((s.data.dropWhile isPySpace).reverse.dropWhile isPySpace).reverse⟩

/-- Python `s[:n]` (first `n` code points). -/
def pyTake (s : String) (n : Nat) : String :=
  ⟨s.data.take n⟩

/-- `strPre n h` : the character list `n` is a prefix of `h`. -/
def strPre : List Char → List Char → Bool
  | [], _ => true
  | _ :: _, [] => false
  | a :: n, b :: h => a == b && strPre n h

/-- `strSub n h` : the character list `n` occurs contiguously in `h`. -/
def strSub (n : List Char) : List Char → Bool
  | [] => strPre n []
  | c :: h => strPre n (c :: h) || strSub n h

/-- Python `needle in hay` on strings (substring containment). -/
def containsSub (hay needle : String) : Bool :=
  strSub needle.data hay.data

/-- Helper for `_clean_html`: given the characters after a `'<'`, find
the first `'>'` not preceded by a newline and return the remainder
after it.  Python's `re.sub(r"<.*?>", "", s)` matches non-greedily and
`.` does not cross newlines, so a match starting at a `'<'` succeeds
exactly when the first `'>'`-or-newline after it is a `'>'`. -/
def findTagEnd : List Char → Option (List Char)
  | [] => none
  | c :: rest =>
    if c = '>' then some rest
    else if c = '\n' then none
    else findTagEnd rest

theorem findTagEnd_length :
    ∀ l l', findTagEnd l = some l' → l'.length < l.length := by
  intro l
  induction l with
  | nil => intro l' h; simp [findTagEnd] at h
  | cons c rest ih =>
    intro l' h
    simp only [findTagEnd] at h
    by_cases hgt : c = '>'
    · simp [hgt] at h
      subst h
      simp
    · by_cases hnl : c = '\n'
      · simp [hgt, hnl] at h
      · simp [hgt, hnl] at h
        exact Nat.lt_succ_of_lt (ih l' h)

/-- Character-level body of `_clean_html`, i.e. of
`re.sub(r"<.*?>", "", raw_html)`: each `'<'` either opens a match ending
at the first following `'>'` (removed), or — when a newline intervenes
first, which `.` cannot cross — stays literal, with scanning resuming
right after it.  The `fuel` argument only makes the recursion
structural; `fuel = l.length` always suffices, since `findTagEnd`
returns a strictly shorter suffix. -/
def stripTagsFuel : Nat → List Char → List Char
  | 0, _ => []
  | _ + 1, [] => []
  | fuel + 1, '<' :: rest =>
    match findTagEnd rest with
    | some rest' => stripTagsFuel fuel rest'
    | none => '<' :: stripTagsFuel fuel rest
  | fuel + 1, c :: rest => c :: stripTagsFuel fuel rest

def stripTags (l : List Char) : List Char :=
  stripTagsFuel l.length l

/-- `NaverAPIClient._clean_html`.  (The Python guard
`if raw_html else ""` returns `""` on the empty string, which the
regex substitution also does, so the guard is behaviour-neutral.) -/
def cleanHtml (s : String) : String :=
  ⟨stripTags s.data⟩

/-- Python `s.replace(chr(34), "").replace(chr(39), "")`, as applied to
the optimized keyword string in `create_recommendations_v2`. -/
def removeQuotes (s : String) : String :=
  ⟨(s.data.filter (fun c => c ≠ '"')).filter (fun c => c ≠ '\x27')⟩

/-! ### Python value primitives -/

mutual

/-- Python `repr` of a `json.loads` value, as embedded into an f-string
for non-string values.  String escaping inside `repr` is approximated
by plain single quotes; no claim depends on a non-string translated
field. -/
def pyRepr : Json → String
  | .null => "None"
  | .bool b => if b then "True" else "False"
  | .num n => toString n
  | .str s => "\x27" ++ s ++ "\x27"
  | .arr xs => "[" ++ String.intercalate ", " (pyReprList xs) ++ "]"
  | .obj kvs => "\x7b" ++ String.intercalate ", " (pyReprObj kvs) ++ "\x7d"

def pyReprList : List Json → List String
  | [] => []
  | x :: xs => pyRepr x :: pyReprList xs

def pyReprObj : List (String × Json) → List String
  | [] => []
  | (k, v) :: xs => ("\x27" ++ k ++ "\x27: " ++ pyRepr v) :: pyReprObj xs

end

/-- Python `str` / f-string interpolation of a `json.loads` value. -/
def pyStr : Json → String
  | .str s => s
  | j => pyRepr j

/-- Python `a or b.get(..., "")` as used for
`item.get("roadAddress") or item.get("address", "")`: the first operand
wins unless it is `None` or the empty (falsy) string. -/
def pyOr (a b : Option String) : String :=
  match a with
  | some s => if s = "" then b.getD "" else s
  | none => b.getD ""

/-- Python `d[k]` on a `json.loads` value: `Except.error ()` models the
`KeyError` on a missing key and the `TypeError` on subscripting a
non-dict value. -/
def jsonGet (j : Json) (k : String) : Except Unit Json :=
  match j with
  | .obj kvs =>
    match kvs.lookup k with
    | some v => .ok v
    | none => .error ()
  | _ => .error ()

/-- Python `d.get(k, default)` on a `json.loads` value: `none` models
the `AttributeError` raised when the value is not a dict. -/
def jsonGetD (j : Json) (k : String) (d : Json) : Option Json :=
  match j with
  | .obj kvs => some ((kvs.lookup k).getD d)
  | _ => none

/-- Whether an `Except` carries a value (no exception). -/
def eOk : Except Unit Json → Bool
  | .ok _ => true
  | .error _ => false

/-! ### NaverAPIClient -/

/-- `NaverAPIClient.search_places`: on any exception the code returns
`[]`. -/
def search_places (o : Oracle) (query : String) : List PlaceItem :=
  (o.search query).getD []

/-- The `ad_keywords` list of `fetch_blog_context`, verbatim from the
source (including the duplicated first entry). -/
def ad_keywords : List String :=
  ["원고료", "지원", "체험단", "협찬", "서비스", "원고료", "업체",
   "포스팅", "제작비", "광고", "리뷰 이벤트", "홍보", "프로모션"]

/-- `self._clean_html(i.get("description", ""))`. -/
def cleanDesc (i : BlogItem) : String :=
  cleanHtml (i.description.getD "")

/-- `NaverAPIClient.fetch_blog_context`.  The list comprehension keeps
an item when no ad keyword occurs in its cleaned description, mapping
each kept item to that cleaned description. -/
def fetch_blog_context (o : Oracle) (name address : String) : ReviewBundle :=
  match o.blog (name ++ " " ++ address ++ " 맛집 후기") with
  | none => { context := "", removed_count := 0 }
  | some items =>
    let filtered_items :=
      (items.filter
        (fun i => !(ad_keywords.any (fun key => containsSub (cleanDesc i) key)))).map
        cleanDesc
    { context := String.intercalate " " filtered_items,
      removed_count := items.length - filtered_items.length }

/-! ### ContentAnalyzer -/

/-- The fallback dict returned when no OpenAI client is configured. -/
def fallbackNoClient (name : String) : Json :=
  .obj [("summary", .str (name ++ "은 인기 맛집입니다.")),
        ("pros", .arr [.str "맛"]),
        ("cons", .arr [.str "대기"])]

/-- The fallback dict returned when the review context is empty or too
short. -/
def fallbackShortContext (name : String) : Json :=
  .obj [("summary", .str (name ++ "은 리뷰 정보가 부족한 인기 맛집입니다.")),
        ("pros", .arr [.str "접근성"]),
        ("cons", .arr [.str "리뷰 부족"])]

/-- The fallback dict returned when the model call or the JSON parse of
its reply raises. -/
def fallbackModelError (name : String) : Json :=
  .obj [("summary", .str (name ++ "은 인기 맛집입니다.")),
        ("pros", .arr [.str "맛", .str "분위기"]),
        ("cons", .arr [.str "대기 시간"])]

/-- `context[:2000].strip()`: the review text actually sent to the
model. -/
def richContext (context : String) : String :=
  pyStrip (pyTake context 2000)

/-- `target_lang` selection in `analyze_restaurant`. -/
def targetLang (language : String) : String :=
  if language = "en" then "English" else "Korean"

/-- `ContentAnalyzer.analyze_restaurant`.  A total function: every
branch of the Python code returns a dict (the `try` covers both the
call and `json.loads`), so no exception escapes. -/
def analyze_restaurant (o : Oracle) (name context language : String) : Json :=
  if o.hasKey = false then fallbackNoClient name
  else if context = "" ∨ (pyStrip context).length < 10 then
    fallbackShortContext name
  else
    match o.analyzeReply name (richContext context) (targetLang language) with
    | .ok j => j
    | .error _ => fallbackModelError name

/-! ### RecommendationService -/

/-- Sequential per-item processing of the Python `for` loop: stops at
the first escaping exception, otherwise collects the results in
order. -/
def mapE {α β : Type} (f : α → Except Unit β) : List α → Except Unit (List β)
  | [] => .ok []
  | x :: xs =>
    match f x with
    | .error e => .error e
    | .ok y =>
      match mapE f xs with
      | .error e => .error e
      | .ok ys => .ok (y :: ys)

/-- The loop body of `create_recommendations`: enriches one place item.
The three `analysis[...]` subscripts may raise (`jsonGet`), in which
case the exception escapes the pipeline. -/
def buildItem (o : Oracle) (item : PlaceItem) : Except Unit RecItem :=
  let nm := cleanHtml item.title
  let addr := pyOr item.roadAddress item.address
  let blog := fetch_blog_context o nm addr
  let analysis := analyze_restaurant o nm blog.context "ko"
  match jsonGet analysis "summary", jsonGet analysis "pros",
        jsonGet analysis "cons" with
  | .ok s, .ok p, .ok c =>
    .ok { name := nm, address := .str addr, summary := s,
          summary_pros := p, summary_cons := c,
          is_ad_filtered := true,
          filtered_ad_count := blog.removed_count,
          mapx := item.mapx, mapy := item.mapy,
          keywords := ["맛집", "추천"] }
  | _, _, _ => .error ()

/-- `RecommendationService.create_recommendations` (v1). -/
def create_recommendations (o : Oracle) (prompt : String) :
    Except Unit RecResult :=
  let places := search_places o prompt
  if places.isEmpty then
    .ok { answer := "검색 결과가 없습니다.", restaurants := [] }
  else
    match mapE (buildItem o) (places.take 3) with
    | .error e => .error e
    | .ok final_list =>
      .ok { answer := "\x27" ++ prompt ++ "\x27 지역의 추천 결과입니다.",
            restaurants := final_list }

/-- `get_personalized_recommendation`: the operation exposed to the
HTTP layer; forwards only the prompt to the v1 pipeline. -/
def get_personalized_recommendation (o : Oracle) (request : ChatRequest) :
    Except Unit RecResult :=
  create_recommendations o request.prompt

/-- Step 0 of `create_recommendations_v2`: keyword optimization.  When
the client is missing (`hasKey = false`) the attribute access on `None`
raises, which the surrounding `except` also absorbs; on success the
reply is stripped and stripped of quote characters. -/
def v2Query (o : Oracle) (prompt language : String) : String :=
  if language = "en" then
    match (if o.hasKey then o.optimizeReply prompt else .error ()) with
    | .ok content => removeQuotes (pyStrip content)
    | .error _ => prompt
  else prompt

/-- Step 5 of the v2 loop: display translation.  Returns the pair
`(display_name, display_addr)`; any exception (missing client, failed
call/parse, `.get` on a non-dict reply) leaves the Korean values. -/
def translateResult (o : Oracle) (koName koAddr : String) : Json × Json :=
  match (if o.hasKey then o.translateReply koName koAddr else .error ()) with
  | .error _ => (.str koName, .str koAddr)
  | .ok j =>
    match jsonGetD j "name" (.str koName), jsonGetD j "address" (.str koAddr) with
    | some dn, some da => (dn, da)
    | _, _ => (.str koName, .str koAddr)

/-- The loop body of `create_recommendations_v2`. -/
def buildItemV2 (o : Oracle) (language : String) (item : PlaceItem) :
    Except Unit RecItem :=
  let koName := cleanHtml item.title
  let koAddr := pyOr item.roadAddress item.address
  let blog := fetch_blog_context o koName koAddr
  let analysis := analyze_restaurant o koName blog.context language
  let disp :=
    if language = "en" then translateResult o koName koAddr
    else (.str koName, .str koAddr)
  match jsonGet analysis "summary", jsonGet analysis "pros",
        jsonGet analysis "cons" with
  | .ok s, .ok p, .ok c =>
    .ok { name := koName ++ " (" ++ pyStr disp.1 ++ ")",
          address := disp.2, summary := s,
          summary_pros := p, summary_cons := c,
          is_ad_filtered := true,
          filtered_ad_count := blog.removed_count,
          mapx := item.mapx, mapy := item.mapy,
          keywords := ["맛집", "추천"] }
  | _, _, _ => .error ()

/-- `RecommendationService.create_recommendations_v2`. -/
def create_recommendations_v2 (o : Oracle) (request : ChatRequest) :
    Except Unit RecResult :=
  let search_query := v2Query o request.prompt request.language
  let places := search_places o search_query
  if places.isEmpty then
    .ok { answer := "검색 결과가 없습니다.", restaurants := [] }
  else
    match mapE (buildItemV2 o request.language) (places.take 3) with
    | .error e => .error e
    | .ok final_list =>
      .ok { answer := "Search: \x27" ++ request.prompt ++ "\x27",
            restaurants := final_list }

/-! ### Specification-side predicates

These re-state, in the spec's own words, the shapes the claims talk
about; the theorems below compare them with the source-derived
functions. -/

/-- The spec's well-formed `Summary` shape: a non-empty `summary`
string and list-typed `pros` and `cons`. -/
def wellFormedSummaryB (j : Json) : Bool :=
  (match jsonGet j "summary" with
   | .ok (.str s) => !(s == "")
   | _ => false) &&
  (match jsonGet j "pros" with
   | .ok (.arr _) => true
   | _ => false) &&
  (match jsonGet j "cons" with
   | .ok (.arr _) => true
   | _ => false)

/-- The analysis dict carries the three keys the pipelines subscript;
the weakest shape under which the pipelines cannot raise. -/
def hasKeysB (j : Json) : Bool :=
  eOk (jsonGet j "summary") && eOk (jsonGet j "pros") && eOk (jsonGet j "cons")

/-- The spec's characterization of the kept review items: exactly those
whose cleaned description contains none of the ad keywords. -/
def keptItems (items : List BlogItem) : List BlogItem :=
  items.filter
    (fun i => ad_keywords.all (fun key => !(containsSub (cleanDesc i) key)))

/-! ### Helper lemmas -/

theorem eOk_exists {x : Except Unit Json} (h : eOk x = true) :
    ∃ j, x = .ok j := by
  cases x with
  | ok j => exact ⟨j, rfl⟩
  | error e => simp [eOk] at h

theorem mapE_ok_of_all {α β : Type} (f : α → Except Unit β) :
    ∀ l : List α, (∀ x ∈ l, ∃ y, f x = .ok y) →
      ∃ ys, mapE f l = .ok ys ∧ ys.length = l.length := by
  intro l
  induction l with
  | nil => intro _; exact ⟨[], rfl, rfl⟩
  | cons x xs ih =>
    intro h
    obtain ⟨y, hy⟩ := h x (List.mem_cons_self x xs)
    obtain ⟨ys, hys, hlen⟩ := ih (fun a ha => h a (List.mem_cons_of_mem x ha))
    refine ⟨y :: ys, ?_, by simp [hlen]⟩
    simp [mapE, hy, hys]

theorem mapE_ok_mem {α β : Type} (f : α → Except Unit β) :
    ∀ (l : List α) (ys : List β), mapE f l = .ok ys →
      ∀ y ∈ ys, ∃ x, x ∈ l ∧ f x = .ok y := by
  intro l
  induction l with
  | nil =>
    intro ys h y hy
    simp [mapE] at h
    subst h
    simp at hy
  | cons x xs ih =>
    intro ys h y hy
    simp only [mapE] at h
    cases hfx : f x with
    | error e => rw [hfx] at h; exact absurd h (by simp)
    | ok y' =>
      rw [hfx] at h
      cases hxs : mapE f xs with
      | error e => rw [hxs] at h; exact absurd h (by simp)
      | ok ys' =>
        rw [hxs] at h
        have : y' :: ys' = ys := by simpa using h
        subst this
        rcases List.mem_cons.mp hy with hy | hy
        · exact ⟨x, List.mem_cons_self x xs, by rw [hfx, hy]⟩
        · obtain ⟨a, ha, hfa⟩ := ih ys' hxs y hy
          exact ⟨a, List.mem_cons_of_mem x ha, hfa⟩

theorem dropWhile_length_le {α : Type} (p : α → Bool) :
    ∀ l : List α, (l.dropWhile p).length ≤ l.length := by
  intro l
  induction l with
  | nil => simp
  | cons x xs ih =>
    rw [List.dropWhile_cons]
    by_cases h : p x = true
    · simp only [h, if_true]
      exact Nat.le_succ_of_le ih
    · simp [h]

theorem pyStrip_length_le (s : String) : (pyStrip s).length ≤ s.length := by
  show (((s.data.dropWhile isPySpace).reverse.dropWhile isPySpace).reverse).length
      ≤ s.data.length
  rw [List.length_reverse]
  calc ((s.data.dropWhile isPySpace).reverse.dropWhile isPySpace).length
      ≤ (s.data.dropWhile isPySpace).reverse.length := dropWhile_length_le _ _
    _ = (s.data.dropWhile isPySpace).length := List.length_reverse _
    _ ≤ s.data.length := dropWhile_length_le _ _

theorem richContext_length_le (c : String) : (richContext c).length ≤ 2000 := by
  have h1 : (pyTake c 2000).length ≤ 2000 := by
    show (c.data.take 2000).length ≤ 2000
    simp [List.length_take]
  exact Nat.le_trans (pyStrip_length_le _) h1

theorem append_ne_empty_beq (s t : String) (h : t.data ≠ []) :
    (s ++ t == "") = false := by
  apply beq_eq_false_iff_ne.mpr
  intro he
  apply h
  have hd : (s ++ t).data = s.data ++ t.data := by cases s; cases t; rfl
  have : s.data ++ t.data = [] := by rw [← hd, he]
  exact (List.append_eq_nil.mp this).2

/-- Under a model oracle whose successfully parsed replies all carry the
three keys, every analysis dict carries them (the three fallbacks always
do). -/
theorem analyze_hasKeys (o : Oracle) (n c l : String)
    (H : ∀ n' c' l' j, o.analyzeReply n' c' l' = .ok j → hasKeysB j = true) :
    hasKeysB (analyze_restaurant o n c l) = true := by
  unfold analyze_restaurant
  by_cases h1 : o.hasKey = false
  · rw [if_pos h1]; rfl
  · rw [if_neg h1]
    by_cases h2 : c = "" ∨ (pyStrip c).length < 10
    · rw [if_pos h2]; rfl
    · rw [if_neg h2]
      cases heq : o.analyzeReply n (richContext c) (targetLang l) with
      | ok j => exact H _ _ _ j heq
      | error e => rfl

theorem buildItem_ok (o : Oracle) (item : PlaceItem)
    (H : ∀ n' c' l' j, o.analyzeReply n' c' l' = .ok j → hasKeysB j = true) :
    ∃ ri, buildItem o item = .ok ri := by
  have hk := analyze_hasKeys o (cleanHtml item.title)
    (fetch_blog_context o (cleanHtml item.title)
      (pyOr item.roadAddress item.address)).context "ko" H
  simp only [hasKeysB, Bool.and_eq_true] at hk
  obtain ⟨⟨hs, hp⟩, hc⟩ := hk
  obtain ⟨sj, hsj⟩ := eOk_exists hs
  obtain ⟨pj, hpj⟩ := eOk_exists hp
  obtain ⟨cj, hcj⟩ := eOk_exists hc
  simp only [buildItem]
  rw [hsj, hpj, hcj]
  exact ⟨_, rfl⟩

theorem buildItem_shape (o : Oracle) (item : PlaceItem) (ri : RecItem)
    (h : buildItem o item = .ok ri) :
    ri.is_ad_filtered = true ∧ ri.keywords = ["맛집", "추천"] := by
  simp only [buildItem] at h
  split at h
  · cases h
    exact ⟨rfl, rfl⟩
  · exact absurd h (by simp)

theorem buildItemV2_shape (o : Oracle) (lang : String) (item : PlaceItem)
    (ri : RecItem) (h : buildItemV2 o lang item = .ok ri) :
    ri.is_ad_filtered = true ∧ ri.keywords = ["맛집", "추천"] ∧
      ∃ d, ri.name = cleanHtml item.title ++ " (" ++ d ++ ")" := by
  simp only [buildItemV2] at h
  split at h
  · cases h
    exact ⟨rfl, rfl, _, rfl⟩
  · exact absurd h (by simp)

/-! ### Claim C9 -/

/-- C9: two requests with the same prompt but different language values
give identical results under the same oracle:
`get_personalized_recommendation` forwards only the prompt to the v1
pipeline, which never reads the language field. -/
theorem C9_language_independence (o : Oracle) (prompt l₁ l₂ : String) :
    get_personalized_recommendation o ⟨prompt, l₁⟩ =
      get_personalized_recommendation o ⟨prompt, l₂⟩ := rfl

/-! ### Claim C10 -/

/-- C10: every `RecommendationItem` assembled by either pipeline has
`is_ad_filtered = true` and `keywords = ["맛집", "추천"]`, for every
prompt/request and every oracle behaviour — in particular also when
review fetching failed and `filtered_ad_count` is 0. -/
theorem C10_constant_flags (o : Oracle) (prompt : String) (req : ChatRequest) :
    (∀ r, create_recommendations o prompt = .ok r →
      ∀ ri ∈ r.restaurants,
        ri.is_ad_filtered = true ∧ ri.keywords = ["맛집", "추천"]) ∧
    (∀ r, create_recommendations_v2 o req = .ok r →
      ∀ ri ∈ r.restaurants,
        ri.is_ad_filtered = true ∧ ri.keywords = ["맛집", "추천"]) := by
  constructor
  · intro r hr ri hm
    simp only [create_recommendations] at hr
    by_cases hp : (search_places o prompt).isEmpty = true
    · rw [if_pos hp] at hr
      cases hr
      simp at hm
    · rw [if_neg hp] at hr
      cases hys : mapE (buildItem o) ((search_places o prompt).take 3) with
      | error e => rw [hys] at hr; exact absurd hr (by simp)
      | ok ys =>
        rw [hys] at hr
        cases hr
        obtain ⟨x, _, hfx⟩ := mapE_ok_mem _ _ _ hys ri hm
        exact buildItem_shape o x ri hfx
  · intro r hr ri hm
    simp only [create_recommendations_v2] at hr
    by_cases hp :
        (search_places o (v2Query o req.prompt req.language)).isEmpty = true
    · rw [if_pos hp] at hr
      cases hr
      simp at hm
    · rw [if_neg hp] at hr
      cases hys : mapE (buildItemV2 o req.language)
          ((search_places o (v2Query o req.prompt req.language)).take 3) with
      | error e => rw [hys] at hr; exact absurd hr (by simp)
      | ok ys =>
        rw [hys] at hr
        cases hr
        obtain ⟨x, _, hfx⟩ := mapE_ok_mem _ _ _ hys ri hm
        obtain ⟨h1, h2, _⟩ := buildItemV2_shape o req.language x ri hfx
        exact ⟨h1, h2⟩

/-- Oracle for the C10 witness: one search hit, review fetch failing,
no model credential. -/
def oC10 : Oracle where
  hasKey := false
  search := fun _ => some [⟨"국밥집", none, none, none, none⟩]
  blog := fun _ => none
  analyzeReply := fun _ _ _ => .error ()
  optimizeReply := fun _ => .error ()
  translateReply := fun _ _ => .error ()

/-- The item the v1 pipeline assembles under `oC10`. -/
def riC10 : RecItem where
  name := "국밥집"
  address := .str ""
  summary := .str "국밥집은 인기 맛집입니다."
  summary_pros := .arr [.str "맛"]
  summary_cons := .arr [.str "대기"]
  is_ad_filtered := true
  filtered_ad_count := 0
  mapx := none
  mapy := none
  keywords := ["맛집", "추천"]

def rC10 : RecResult where
  answer := "\x27서울 국밥\x27 지역의 추천 결과입니다."
  restaurants := [riC10]

theorem C10_witness :
    riC10.is_ad_filtered = true ∧ riC10.keywords = ["맛집", "추천"] :=
  (C10_constant_flags oC10 "서울 국밥" ⟨"서울 국밥", "ko"⟩).1 rC10 rfl riC10
    (by simp [rC10])

/-! ### Claim C1 -/

/-- Oracle refuting C1: the model call succeeds and its reply parses to
the valid JSON object `obj []`, which has no `summary` key. -/
def oC1 : Oracle where
  hasKey := true
  search := fun _ => some [⟨"<b>A포차</b>", some "서울 강남구", none, some "1", some "2"⟩]
  blog := fun _ => some [⟨some "진짜 맛있는 집 0123456789"⟩]
  analyzeReply := fun _ _ _ => .ok (.obj [])
  optimizeReply := fun _ => .error ()
  translateReply := fun _ _ => .error ()

/-- C1 (counterexample): `get_personalized_recommendation` can raise.
With one search hit, a review context long enough to reach the model,
and the model replying the valid JSON object with no keys, the v1
pipeline raises `KeyError` at `analysis["summary"]`, so the exposed
operation does not return a `RecommendationResult`. -/
theorem C1_counterexample :
    get_personalized_recommendation oC1 ⟨"강남역 맛집", "ko"⟩ = .error () := rfl

/-- C1 (amended): whenever every successfully parsed model reply is a
JSON object carrying the `summary`, `pros` and `cons` keys — in
particular whenever the model call always fails, or never happens —
`get_personalized_recommendation` returns a `RecommendationResult`
(no exception), and its restaurants list has length between 0 and 3. -/
theorem C1_total_when_replies_keyed (o : Oracle) (req : ChatRequest)
    (H : ∀ n c l j, o.analyzeReply n c l = .ok j → hasKeysB j = true) :
    ∃ r, get_personalized_recommendation o req = .ok r ∧
      r.restaurants.length ≤ 3 := by
  simp only [get_personalized_recommendation, create_recommendations]
  by_cases hp : (search_places o req.prompt).isEmpty = true
  · rw [if_pos hp]
    exact ⟨_, rfl, by simp⟩
  · rw [if_neg hp]
    obtain ⟨ys, hys, hlen⟩ := mapE_ok_of_all (buildItem o)
      ((search_places o req.prompt).take 3) (fun x _ => buildItem_ok o x H)
    rw [hys]
    refine ⟨_, rfl, ?_⟩
    show ys.length ≤ 3
    rw [hlen]
    simp [List.length_take]

/-- Oracle for the C1 witness: search fails, no credential, every model
call errors. -/
def oC1w : Oracle where
  hasKey := false
  search := fun _ => none
  blog := fun _ => none
  analyzeReply := fun _ _ _ => .error ()
  optimizeReply := fun _ => .error ()
  translateReply := fun _ _ => .error ()

theorem C1_witness :
    ∃ r, get_personalized_recommendation oC1w ⟨"성수동 맛집", "en"⟩ = .ok r ∧
      r.restaurants.length ≤ 3 :=
  C1_total_when_replies_keyed oC1w ⟨"성수동 맛집", "en"⟩
    (fun _ _ _ _ h => nomatch h)

/-! ### Claim C2 -/

theorem not_any_eq_all_not {α : Type} (l : List α) (f : α → Bool) :
    (!(l.any f)) = l.all (fun x => !(f x)) := by
  induction l with
  | nil => rfl
  | cons x xs ih => simp [List.any_cons, List.all_cons, Bool.not_or, ih]

/-- C2: when the blog fetch yields `items`, the returned bundle drops
exactly the items whose cleaned description contains some ad keyword:
`removed_count + kept = total`, `removed_count = total - kept`, and the
context is the cleaned kept texts joined by single spaces in provider
order. -/
theorem C2_review_bundle_invariant (o : Oracle) (name addr : String)
    (items : List BlogItem)
    (h : o.blog (name ++ " " ++ addr ++ " 맛집 후기") = some items) :
    (fetch_blog_context o name addr).removed_count + (keptItems items).length
        = items.length ∧
    (fetch_blog_context o name addr).removed_count
        = items.length - (keptItems items).length ∧
    (fetch_blog_context o name addr).context
        = String.intercalate " " ((keptItems items).map cleanDesc) := by
  have hfilter :
      items.filter
          (fun i => !(ad_keywords.any (fun key => containsSub (cleanDesc i) key)))
        = keptItems items := by
    unfold keptItems
    apply List.filter_congr
    intro i _
    exact not_any_eq_all_not ad_keywords (fun key => containsSub (cleanDesc i) key)
  have hlen : (keptItems items).length ≤ items.length := List.length_filter_le _ _
  simp only [fetch_blog_context, h, hfilter, List.length_map]
  exact ⟨Nat.sub_add_cancel hlen, trivial, trivial⟩

/-- Item list for the C2 witness: one sponsored item (dropped), one
organic item, one item with no description. -/
def itemsC2 : List BlogItem :=
  [⟨some "<b>원고료를 받아 작성한 글</b>"⟩,
   ⟨some "국물이 끝내주는 집 재방문 의사 있음"⟩, ⟨none⟩]

def oC2 : Oracle where
  hasKey := false
  search := fun _ => none
  blog := fun _ => some itemsC2
  analyzeReply := fun _ _ _ => .error ()
  optimizeReply := fun _ => .error ()
  translateReply := fun _ _ => .error ()

theorem C2_witness :
    (fetch_blog_context oC2 "한식당" "서울").removed_count
        + (keptItems itemsC2).length = itemsC2.length ∧
    (fetch_blog_context oC2 "한식당" "서울").removed_count
        = itemsC2.length - (keptItems itemsC2).length ∧
    (fetch_blog_context oC2 "한식당" "서울").context
        = String.intercalate " " ((keptItems itemsC2).map cleanDesc) :=
  C2_review_bundle_invariant oC2 "한식당" "서울" itemsC2 rfl

/-! ### Claim C3 -/

/-- Oracle refuting C3: two individually ad-free review items whose
cleaned texts are the two halves of the multi-word keyword
`"리뷰 이벤트"`; the single-space join glues them into that keyword. -/
def oC3 : Oracle where
  hasKey := false
  search := fun _ => none
  blog := fun _ => some [⟨some "리뷰"⟩, ⟨some "이벤트"⟩]
  analyzeReply := fun _ _ _ => .error ()
  optimizeReply := fun _ => .error ()
  translateReply := fun _ _ => .error ()

/-- C3 (counterexample): the joined context can contain an ad keyword.
Both fetched items survive the per-item filter, and the joined context
`"리뷰 이벤트"` contains the ad keyword `"리뷰 이벤트"` as a substring. -/
theorem C3_counterexample :
    containsSub (fetch_blog_context oC3 "카페" "성수동").context "리뷰 이벤트" = true ∧
    "리뷰 이벤트" ∈ ad_keywords :=
  ⟨rfl, by simp [ad_keywords]⟩

/-- C3 (amended): each kept item's cleaned text individually contains no
ad keyword, and the context is exactly those texts joined by single
spaces; the join itself, however, may form a multi-word ad keyword
across the space between two adjacent kept texts. -/
theorem C3_kept_texts_ad_free (o : Oracle) (name addr : String)
    (items : List BlogItem)
    (h : o.blog (name ++ " " ++ addr ++ " 맛집 후기") = some items) :
    ∃ texts : List String,
      (fetch_blog_context o name addr).context = String.intercalate " " texts ∧
      ∀ t ∈ texts, ∀ k ∈ ad_keywords, containsSub t k = false := by
  refine ⟨(items.filter
      (fun i => !(ad_keywords.any (fun key => containsSub (cleanDesc i) key)))).map
      cleanDesc, ?_, ?_⟩
  · simp only [fetch_blog_context, h]
  · intro t ht k hk
    obtain ⟨i, hi, rfl⟩ := List.mem_map.mp ht
    have hmem := List.of_mem_filter hi
    rw [Bool.not_eq_true'] at hmem
    rw [List.any_eq_false] at hmem
    have := hmem k hk
    simpa using this

theorem C3_witness :
    ∃ texts : List String,
      (fetch_blog_context oC3 "카페" "성수동").context
          = String.intercalate " " texts ∧
      ∀ t ∈ texts, ∀ k ∈ ad_keywords, containsSub t k = false :=
  C3_kept_texts_ad_free oC3 "카페" "성수동" [⟨some "리뷰"⟩, ⟨some "이벤트"⟩] rfl

/-! ### Claim C4 -/

theorem wellFormed_obj (s : String) (ps cs : List Json)
    (h : (s == "") = false) :
    wellFormedSummaryB
      (.obj [("summary", .str s), ("pros", .arr ps), ("cons", .arr cs)])
        = true := by
  simp [wellFormedSummaryB, jsonGet, List.lookup, h]

theorem wellFormed_fallbackNoClient (n : String) :
    wellFormedSummaryB (fallbackNoClient n) = true :=
  wellFormed_obj _ _ _ (append_ne_empty_beq n "은 인기 맛집입니다." (by decide))

theorem wellFormed_fallbackShortContext (n : String) :
    wellFormedSummaryB (fallbackShortContext n) = true :=
  wellFormed_obj _ _ _
    (append_ne_empty_beq n "은 리뷰 정보가 부족한 인기 맛집입니다." (by decide))

theorem wellFormed_fallbackModelError (n : String) :
    wellFormedSummaryB (fallbackModelError n) = true :=
  wellFormed_obj _ _ _ (append_ne_empty_beq n "은 인기 맛집입니다." (by decide))

/-- Oracle refuting C4: guards pass and the model reply parses to the
valid JSON object with no keys, which the code returns unvalidated. -/
def oC4 : Oracle where
  hasKey := true
  search := fun _ => none
  blog := fun _ => none
  analyzeReply := fun _ _ _ => .ok (.obj [])
  optimizeReply := fun _ => .error ()
  translateReply := fun _ _ => .error ()

/-- C4 (counterexample): with a model reply parsing to `obj []`,
`analyze_restaurant` returns that object as-is, which has no `summary`
string and no `pros`/`cons` lists at all — the claimed shape guarantee
fails for successfully parsed arbitrary JSON. -/
theorem C4_counterexample :
    analyze_restaurant oC4 "맛나분식" "정말 맛있어요 또 가고 싶어요" "ko" = .obj [] ∧
    wellFormedSummaryB
      (analyze_restaurant oC4 "맛나분식" "정말 맛있어요 또 가고 싶어요" "ko") = false :=
  ⟨rfl, rfl⟩

/-- C4 (amended): `analyze_restaurant` never raises (it is total), and
its result is either a well-formed summary — non-empty `summary` string
and list-typed `pros`/`cons`, as all three fallbacks are — or exactly
the model's successfully parsed JSON reply, returned without shape
validation. -/
theorem C4_wellformed_or_model_json (o : Oracle) (n c l : String) :
    wellFormedSummaryB (analyze_restaurant o n c l) = true ∨
    ∃ j, o.analyzeReply n (richContext c) (targetLang l) = .ok j ∧
      analyze_restaurant o n c l = j := by
  unfold analyze_restaurant
  by_cases h1 : o.hasKey = false
  · rw [if_pos h1]
    exact Or.inl (wellFormed_fallbackNoClient n)
  · rw [if_neg h1]
    by_cases h2 : c = "" ∨ (pyStrip c).length < 10
    · rw [if_pos h2]
      exact Or.inl (wellFormed_fallbackShortContext n)
    · rw [if_neg h2]
      cases heq : o.analyzeReply n (richContext c) (targetLang l) with
      | ok j => exact Or.inr ⟨j, rfl, rfl⟩
      | error e => exact Or.inl (wellFormed_fallbackModelError n)

/-! ### Claim C6 -/

/-- C6: if no model credential is configured, or the (stripped) context
is empty or shorter than 10 characters, `analyze_restaurant` returns a
deterministic fallback — `fallbackShortContext`, the distinct
"insufficient review" one, exactly when a credential is configured (the
missing-credential guard runs first) — and the model is not invoked:
the result is unchanged under an arbitrary replacement of the model
reply function. -/
theorem C6_guard_clauses (o : Oracle) (n c l : String)
    (h : o.hasKey = false ∨ c = "" ∨ (pyStrip c).length < 10) :
    analyze_restaurant o n c l =
      (if o.hasKey then fallbackShortContext n else fallbackNoClient n) ∧
    ∀ reply, analyze_restaurant { o with analyzeReply := reply } n c l
        = analyze_restaurant o n c l := by
  have main : ∀ o' : Oracle, o'.hasKey = o.hasKey →
      analyze_restaurant o' n c l =
        (if o.hasKey then fallbackShortContext n else fallbackNoClient n) := by
    intro o' hk
    unfold analyze_restaurant
    rw [hk]
    by_cases hko : o.hasKey = false
    · rw [if_pos hko, hko]
      rfl
    · have h2 : c = "" ∨ (pyStrip c).length < 10 := h.resolve_left hko
      have hkt : o.hasKey = true := by
        cases hb : o.hasKey
        · exact absurd hb hko
        · rfl
      rw [if_neg hko, if_pos h2, hkt]
      rfl
  exact ⟨main o rfl, fun reply =>
    (main { o with analyzeReply := reply } rfl).trans (main o rfl).symm⟩

/-- Oracle for the C6 witness: credential configured, every call
errors. -/
def oC6 : Oracle where
  hasKey := true
  search := fun _ => none
  blog := fun _ => none
  analyzeReply := fun _ _ _ => .error ()
  optimizeReply := fun _ => .error ()
  translateReply := fun _ _ => .error ()

theorem C6_witness :
    analyze_restaurant oC6 "김밥천국" "짧음" "ko" = fallbackShortContext "김밥천국" :=
  (C6_guard_clauses oC6 "김밥천국" "짧음" "ko" (Or.inr (Or.inr (by decide)))).1

/-! ### Claim C7 -/

/-- C7: when the guard clauses pass, the review text handed to the
generative-model call is `richContext c`, i.e. the context truncated to
its first 2000 characters (then stripped), and that text never exceeds
2000 characters. -/
theorem C7_truncation (o : Oracle) (n c l : String)
    (hk : o.hasKey = true) (hc : ¬(c = "" ∨ (pyStrip c).length < 10)) :
    analyze_restaurant o n c l =
      (match o.analyzeReply n (richContext c) (targetLang l) with
       | .ok j => j
       | .error _ => fallbackModelError n) ∧
    (richContext c).length ≤ 2000 := by
  constructor
  · unfold analyze_restaurant
    rw [if_neg (by simp [hk]), if_neg hc]
  · exact richContext_length_le c

/-- Oracle for the C7 witness: credential configured, model call
errors. -/
def oC7 : Oracle where
  hasKey := true
  search := fun _ => none
  blog := fun _ => none
  analyzeReply := fun _ _ _ => .error ()
  optimizeReply := fun _ => .error ()
  translateReply := fun _ _ => .error ()

theorem C7_witness :
    analyze_restaurant oC7 "초밥집" "신선하고 맛있는 초밥 재방문 예정" "ko"
        = fallbackModelError "초밥집" ∧
    (richContext "신선하고 맛있는 초밥 재방문 예정").length ≤ 2000 := by
  have h := C7_truncation oC7 "초밥집" "신선하고 맛있는 초밥 재방문 예정" "ko" rfl
    (by decide)
  exact ⟨h.1, h.2⟩

/-! ### Claim C5 -/

/-- C5: if the place search yields an empty sequence, both pipelines
terminate immediately with the fixed no-results answer and an empty
restaurants list.  The result is fully determined by that condition —
a constant — so the review-collection, summarization and translation
stages cannot influence it (none is invoked). -/
theorem C5_empty_search (o : Oracle) (req : ChatRequest)
    (h1 : search_places o req.prompt = [])
    (h2 : search_places o (v2Query o req.prompt req.language) = []) :
    create_recommendations o req.prompt =
      .ok { answer := "검색 결과가 없습니다.", restaurants := [] } ∧
    create_recommendations_v2 o req =
      .ok { answer := "검색 결과가 없습니다.", restaurants := [] } := by
  constructor
  · simp [create_recommendations, h1]
  · simp [create_recommendations_v2, h2]

/-- Oracle for the C5 witness: the search succeeds with zero items. -/
def oC5 : Oracle where
  hasKey := false
  search := fun _ => some []
  blog := fun _ => none
  analyzeReply := fun _ _ _ => .error ()
  optimizeReply := fun _ => .error ()
  translateReply := fun _ _ => .error ()

theorem C5_witness :
    create_recommendations oC5 "달나라 맛집" =
      .ok { answer := "검색 결과가 없습니다.", restaurants := [] } ∧
    create_recommendations_v2 oC5 ⟨"달나라 맛집", "en"⟩ =
      .ok { answer := "검색 결과가 없습니다.", restaurants := [] } :=
  C5_empty_search oC5 ⟨"달나라 맛집", "en"⟩ rfl rfl

/-! ### Claim C8 -/

theorem translateResult_fail (o : Oracle) (kn ka : String)
    (hfail : o.hasKey = false ∨ o.translateReply kn ka = .error ()) :
    translateResult o kn ka = (.str kn, .str ka) := by
  unfold translateResult
  rcases hfail with hf | hf
  · simp [hf]
  · by_cases hb : o.hasKey = true
    · simp [hb, hf]
    · simp [hb]

theorem buildItemV2_name_fail (o : Oracle) (item : PlaceItem) (ri : RecItem)
    (hfail : o.hasKey = false ∨
      o.translateReply (cleanHtml item.title)
        (pyOr item.roadAddress item.address) = .error ())
    (h : buildItemV2 o "en" item = .ok ri) :
    ri.name = cleanHtml item.title ++ " (" ++ cleanHtml item.title ++ ")" := by
  have ht := translateResult_fail o (cleanHtml item.title)
    (pyOr item.roadAddress item.address) hfail
  simp only [buildItemV2, if_pos, ht] at h
  split at h
  · cases h
    rfl
  · exact absurd h (by simp)

/-- C8: in the v2 pipeline with requested display language `"en"`,
every output item's name has the composite `"native (translated)"`
form, and when the translation call fails (missing credential or
erroring call) the per-item builder produces the composite
`"native (native)"` form with the native name repeated. -/
theorem C8_composite_names (o : Oracle) (req : ChatRequest) (item : PlaceItem)
    (hl : req.language = "en") :
    (∀ r, create_recommendations_v2 o req = .ok r →
      ∀ ri ∈ r.restaurants, ∃ ko d, ri.name = ko ++ " (" ++ d ++ ")") ∧
    (∀ ri, buildItemV2 o req.language item = .ok ri →
      (o.hasKey = false ∨
        o.translateReply (cleanHtml item.title)
          (pyOr item.roadAddress item.address) = .error ()) →
      ri.name = cleanHtml item.title ++ " (" ++ cleanHtml item.title ++ ")") := by
  constructor
  · intro r hr ri hm
    simp only [create_recommendations_v2] at hr
    by_cases hp :
        (search_places o (v2Query o req.prompt req.language)).isEmpty = true
    · rw [if_pos hp] at hr
      cases hr
      simp at hm
    · rw [if_neg hp] at hr
      cases hys : mapE (buildItemV2 o req.language)
          ((search_places o (v2Query o req.prompt req.language)).take 3) with
      | error e => rw [hys] at hr; exact absurd hr (by simp)
      | ok ys =>
        rw [hys] at hr
        cases hr
        obtain ⟨x, _, hfx⟩ := mapE_ok_mem _ _ _ hys ri hm
        obtain ⟨_, _, d, hd⟩ := buildItemV2_shape o req.language x ri hfx
        exact ⟨cleanHtml x.title, d, hd⟩
  · intro ri hri hfail
    rw [hl] at hri
    exact buildItemV2_name_fail o item ri hfail hri

/-- Oracle for the C8 witness: one search hit, no credential, so the
translation attempt raises and is absorbed. -/
def oC8 : Oracle where
  hasKey := false
  search := fun _ => some [⟨"포차", some "서울", none, none, none⟩]
  blog := fun _ => none
  analyzeReply := fun _ _ _ => .error ()
  optimizeReply := fun _ => .error ()
  translateReply := fun _ _ => .error ()

def itemC8 : PlaceItem := ⟨"포차", some "서울", none, none, none⟩

/-- The item the v2 pipeline assembles under `oC8` in `"en"` mode. -/
def riC8 : RecItem where
  name := "포차 (포차)"
  address := .str "서울"
  summary := .str "포차은 인기 맛집입니다."
  summary_pros := .arr [.str "맛"]
  summary_cons := .arr [.str "대기"]
  is_ad_filtered := true
  filtered_ad_count := 0
  mapx := none
  mapy := none
  keywords := ["맛집", "추천"]

def rC8 : RecResult where
  answer := "Search: \x27pocha\x27"
  restaurants := [riC8]

theorem C8_witness :
    (∀ ri ∈ rC8.restaurants, ∃ ko d, ri.name = ko ++ " (" ++ d ++ ")") ∧
    riC8.name = "포차 (포차)" := by
  have h := C8_composite_names oC8 ⟨"pocha", "en"⟩ itemC8 rfl
  exact ⟨h.1 rC8 rfl, h.2 riC8 rfl (Or.inl rfl)⟩

end Cureat
